import Mathlib

/-!
# OBS Audio Video Sync Dock: the shared state store and the WebSocket gateway

A shallow embedding of `src/plugin-main.c`: the record `g_sync_state`, the four
store functions declared in `src/sync-state.h`, and the three vendor request
handlers `get_sync_state_cb`, `start_measurement_cb`, `stop_measurement_cb`.

Every store function and `get_sync_state_cb` runs its whole body between
`pthread_mutex_lock` and `pthread_mutex_unlock` on the one mutex of the record, so
each is embedded as a single step on the record.
-/

namespace SyncDock

/-! ## Data model -/

/-- A C `double`, kept as its 64-bit pattern. The program only stores and copies
doubles (no arithmetic, no comparison), so equality of patterns is what a reader
of the record can observe. -/
structure Double where
  bits : Fin (2 ^ 64)
deriving DecidableEq

/-- The literal `0.0` (all bits clear). -/
def Double.zero : Double := ⟨0⟩

/-- The double `3.0`, a latency in milliseconds used in the examples. -/
def latency_3ms : Double := ⟨0x4008000000000000⟩

/-- The double `440.0`, a marker frequency in Hz used in the examples. -/
def tone_440hz : Double := ⟨0x407B800000000000⟩

/-- The fields of `struct sync_state_t` other than the mutex; `int` fields are
integers (the program never does arithmetic on them). -/
structure sync_state_t where
  latency_ms : Double
  video_index : Int
  audio_index : Int
  frequency : Double
  is_measuring : Bool
  has_data : Bool
deriving DecidableEq

/-- The static initialiser of `g_sync_state`. -/
def g_sync_state : sync_state_t :=
  { latency_ms := Double.zero
    video_index := -1
    audio_index := -1
    frequency := Double.zero
    is_measuring := false
    has_data := false }

/-! ## The store functions -/

/-- The body of `sync_state_update_latency(latency_ms, index)`: the parameter
`index` is not used. -/
def sync_state_update_latency (s : sync_state_t) (latency_ms : Double) (_index : Int) :
    sync_state_t :=
  { s with latency_ms := latency_ms, has_data := true }

/-- The body of `sync_state_update_video(index, frequency)`. -/
def sync_state_update_video (s : sync_state_t) (index : Int) (frequency : Double) :
    sync_state_t :=
  { s with video_index := index, frequency := frequency }

/-- The body of `sync_state_update_audio(index)`. -/
def sync_state_update_audio (s : sync_state_t) (index : Int) : sync_state_t :=
  { s with audio_index := index }

/-- The body of `sync_state_set_measuring(measuring)`. -/
def sync_state_set_measuring (s : sync_state_t) (measuring : Bool) : sync_state_t :=
  let s1 := { s with is_measuring := measuring }
  if !measuring then
    { s1 with
      has_data := false
      latency_ms := Double.zero
      video_index := -1
      audio_index := -1
      frequency := Double.zero }
  else
    s1

/-- One call of a store function, with its arguments. -/
inductive StoreOp where
  | update_latency (latency_ms : Double) (index : Int)
  | update_video (index : Int) (frequency : Double)
  | update_audio (index : Int)
  | set_measuring (measuring : Bool)
deriving DecidableEq

/-- The effect of one store call on the record. -/
def StoreOp.apply (s : sync_state_t) : StoreOp → sync_state_t
  | .update_latency v i => sync_state_update_latency s v i
  | .update_video i f => sync_state_update_video s i f
  | .update_audio i => sync_state_update_audio s i
  | .set_measuring b => sync_state_set_measuring s b

/-- The record after a finite sequence of store calls, first call first. -/
def run_store (s : sync_state_t) : List StoreOp → sync_state_t
  | [] => s
  | op :: rest => run_store (op.apply s) rest

/-- The discipline of a session on a sequence of store calls, starting from `s`:
every `sync_state_update_latency`, `sync_state_update_video` and
`sync_state_update_audio` call finds `is_measuring` set; `sync_state_set_measuring`
may be called at any time. -/
def updates_while_measuring (s : sync_state_t) : List StoreOp → Bool
  | [] => true
  | .set_measuring b :: rest => updates_while_measuring (sync_state_set_measuring s b) rest
  | op :: rest => s.is_measuring && updates_while_measuring (op.apply s) rest

/-- One whole session as the store sees it: start, a video and an audio
observation of marker 4, the latency found for it, stop. -/
def sample_session : List StoreOp :=
  [.set_measuring true, .update_video 4 tone_440hz, .update_audio 4,
    .update_latency latency_3ms 4, .set_measuring false]

/-- The numeric fields hold their unset values: `0.0`, `-1`, `-1`, `0.0`. -/
def numeric_fields_unset (s : sync_state_t) : Prop :=
  s.latency_ms = Double.zero ∧ s.video_index = -1 ∧ s.audio_index = -1 ∧
    s.frequency = Double.zero

instance (s : sync_state_t) : Decidable (numeric_fields_unset s) := by
  unfold numeric_fields_unset
  infer_instance

/-! ## The response object of the host

`obs_data_t` belongs to libobs, not to this repository: a response is a set of
named values, and `obs_data_set_*` overwrites the value of a name that is already
present and adds the name otherwise. -/

/-- A value stored in an `obs_data_t`, one constructor per setter the handlers use. -/
inductive obs_value where
  | bool (b : Bool)
  | int (n : Int)
  | double (d : Double)
  | string (s : String)
deriving DecidableEq

/-- A response object: its named values, in the order the names were added. -/
abbrev obs_data_t := List (String × obs_value)

/-- The empty object a request handler is given to fill. -/
def obs_data_create : obs_data_t := []

/-- Set `name` to `v`: overwrite in place when present, add otherwise. -/
def obs_data_set : obs_data_t → String → obs_value → obs_data_t
  | [], name, v => [(name, v)]
  | (k, w) :: rest, name, v =>
    if k = name then (name, v) :: rest else (k, w) :: obs_data_set rest name v

/-- The value of `name`, when the object has it. -/
def obs_data_get : obs_data_t → String → Option obs_value
  | [], _ => none
  | (k, w) :: rest, name => if k = name then some w else obs_data_get rest name

def obs_data_set_bool (d : obs_data_t) (name : String) (b : Bool) : obs_data_t :=
  obs_data_set d name (.bool b)

def obs_data_set_int (d : obs_data_t) (name : String) (n : Int) : obs_data_t :=
  obs_data_set d name (.int n)

def obs_data_set_double (d : obs_data_t) (name : String) (x : Double) : obs_data_t :=
  obs_data_set d name (.double x)

def obs_data_set_string (d : obs_data_t) (name : String) (x : String) : obs_data_t :=
  obs_data_set d name (.string x)

/-! ## The dock behind the C wrappers

`sync_dock_start_measurement`, `sync_dock_stop_measurement` and
`sync_dock_is_measuring` are declared `extern` in `plugin-main.c`; their bodies
are C++ code of the dock. `g_sync_state` is `static`, so the dock reaches the
record only through the four store functions of `sync-state.h`, and it has no way
to read it: what a dock call does to the record is a list of store calls.
`g_dock_instance` is `static` as well and written only by
`sync_set_dock_instance`, which `sync-state.h` reserves to `plugin-main.c`, so a
dock call leaves the pointer alone. -/

/-- Modelled from the spec: the dock that the three `extern` wrappers call, whose
code is not among the sources. `δ` is the dock's own state. Starting and stopping
change the dock and issue store calls; `is_measuring` is the "pure query, safe in
any state" of the Session Controller and changes nothing. Each wrapper receives
the `void *dock` pointer the handler passes. -/
structure DockOps (δ : Type) where
  sync_dock_is_measuring : Nat → δ → Bool
  sync_dock_start_measurement : Nat → δ → δ × List StoreOp
  sync_dock_stop_measurement : Nat → δ → δ × List StoreOp

/-- Modelled from the spec: the Session Controller state machine
`Idle → Measuring → Idle`, whose code is not among the sources. Its state is the
flag "a session is active"; start calls `set_measuring(true)`, stop calls
`set_measuring(false)`. -/
def session_controller : DockOps Bool where
  sync_dock_is_measuring := fun _ active => active
  sync_dock_start_measurement := fun _ _ => (true, [.set_measuring true])
  sync_dock_stop_measurement := fun _ _ => (false, [.set_measuring false])

/-- What the handlers read and write: the pointer `g_dock_instance` (an address,
`0` for `NULL`), the record `g_sync_state`, and the state of the dock. -/
structure World (δ : Type) where
  g_dock_instance : Nat
  g_sync_state : sync_state_t
  dock : δ

/-- `sync_set_dock_instance(dock)`. -/
def sync_set_dock_instance {δ : Type} (w : World δ) (dock : Nat) : World δ :=
  { w with g_dock_instance := dock }

/-- A call of one of the three `extern` wrappers, with the pointer passed. -/
inductive DockCall where
  | is_measuring (dock : Nat)
  | start_measurement (dock : Nat)
  | stop_measurement (dock : Nat)
deriving DecidableEq

/-- The levels `blog` is called with. -/
inductive LogLevel where
  | LOG_ERROR
  | LOG_WARNING
  | LOG_INFO
deriving DecidableEq

/-- What one run of a request handler leaves behind: the world, the response
object, the wrapper calls it made (in order) and the lines it logged. -/
structure Outcome (δ : Type) where
  world : World δ
  response_data : obs_data_t
  calls : List DockCall
  log : List (LogLevel × String)

/-! ## The request handlers

`request_data` and `priv_data` are `UNUSED_PARAMETER` in all three handlers and
are left out. -/

/-- The handler `get_sync_state_cb`. -/
def get_sync_state_cb {δ : Type} (w : World δ) (response_data : obs_data_t) : Outcome δ :=
  let r1 := obs_data_set_double response_data "latency_ms" w.g_sync_state.latency_ms
  let r2 := obs_data_set_int r1 "video_index" w.g_sync_state.video_index
  let r3 := obs_data_set_int r2 "audio_index" w.g_sync_state.audio_index
  let r4 := obs_data_set_double r3 "frequency" w.g_sync_state.frequency
  let r5 := obs_data_set_bool r4 "is_measuring" w.g_sync_state.is_measuring
  let r6 := obs_data_set_bool r5 "has_data" w.g_sync_state.has_data
  { world := w, response_data := r6, calls := [], log := [] }

/-- The handler `start_measurement_cb`. -/
def start_measurement_cb {δ : Type} (ops : DockOps δ) (w : World δ)
    (response_data : obs_data_t) : Outcome δ :=
  if w.g_dock_instance = 0 then
    { world := w
      response_data :=
        obs_data_set_string (obs_data_set_bool response_data "success" false)
          "error" "Dock not initialized"
      calls := []
      log := [(.LOG_ERROR, "[audio-video-sync-dock] Cannot start: dock not initialized")] }
  else if ops.sync_dock_is_measuring w.g_dock_instance w.dock then
    { world := w
      response_data :=
        obs_data_set_string (obs_data_set_bool response_data "success" false)
          "error" "Already measuring"
      calls := [.is_measuring w.g_dock_instance]
      log := [(.LOG_WARNING, "[audio-video-sync-dock] Measurement already in progress")] }
  else
    let started := ops.sync_dock_start_measurement w.g_dock_instance w.dock
    { world :=
        { w with dock := started.1, g_sync_state := run_store w.g_sync_state started.2 }
      response_data := obs_data_set_bool response_data "success" true
      calls := [.is_measuring w.g_dock_instance, .start_measurement w.g_dock_instance]
      log := [(.LOG_INFO, "[audio-video-sync-dock] Measurement started via WebSocket")] }

/-- The handler `stop_measurement_cb`. -/
def stop_measurement_cb {δ : Type} (ops : DockOps δ) (w : World δ)
    (response_data : obs_data_t) : Outcome δ :=
  if w.g_dock_instance = 0 then
    { world := w
      response_data :=
        obs_data_set_string (obs_data_set_bool response_data "success" false)
          "error" "Dock not initialized"
      calls := []
      log := [(.LOG_ERROR, "[audio-video-sync-dock] Cannot stop: dock not initialized")] }
  else if !ops.sync_dock_is_measuring w.g_dock_instance w.dock then
    { world := w
      response_data :=
        obs_data_set_string (obs_data_set_bool response_data "success" false)
          "error" "Not measuring"
      calls := [.is_measuring w.g_dock_instance]
      log := [(.LOG_WARNING, "[audio-video-sync-dock] No measurement in progress")] }
  else
    let stopped := ops.sync_dock_stop_measurement w.g_dock_instance w.dock
    { world :=
        { w with dock := stopped.1, g_sync_state := run_store w.g_sync_state stopped.2 }
      response_data := obs_data_set_bool response_data "success" true
      calls := [.is_measuring w.g_dock_instance, .stop_measurement w.g_dock_instance]
      log := [(.LOG_INFO, "[audio-video-sync-dock] Measurement stopped via WebSocket")] }

/-- The world when the module is loaded, before `obs_module_post_load` installs
the dock: `g_dock_instance` is `NULL` and the record holds its initialiser. -/
def World.initial {δ : Type} (dock : δ) : World δ :=
  { g_dock_instance := 0, g_sync_state := SyncDock.g_sync_state, dock := dock }

/-- The session controller installed at address `1`, no session active, the
record as initialised. -/
def idle_world : World Bool :=
  { g_dock_instance := 1, g_sync_state := SyncDock.g_sync_state, dock := false }

/-- The session controller installed at address `1` with a session active and
a latency already published. -/
def measuring_world : World Bool :=
  { g_dock_instance := 1
    g_sync_state :=
      sync_state_update_latency (sync_state_set_measuring SyncDock.g_sync_state true)
        latency_3ms 3
    dock := true }

/-! ## Lemmas on the response object -/

theorem obs_data_get_set_self (d : obs_data_t) (name : String) (v : obs_value) :
    obs_data_get (obs_data_set d name v) name = some v := by
  induction d with
  | nil => simp [obs_data_set, obs_data_get]
  | cons kv rest ih =>
    obtain ⟨k, w⟩ := kv
    by_cases h : k = name
    · simp [obs_data_set, obs_data_get, h]
    · simp [obs_data_set, obs_data_get, h, ih]

theorem obs_data_get_set_other (d : obs_data_t) (name other : String) (v : obs_value)
    (hne : name ≠ other) :
    obs_data_get (obs_data_set d name v) other = obs_data_get d other := by
  induction d with
  | nil => simp [obs_data_set, obs_data_get, hne]
  | cons kv rest ih =>
    obtain ⟨k, w⟩ := kv
    by_cases h : k = name
    · subst h
      simp [obs_data_set, obs_data_get, hne]
    · simp [obs_data_set, obs_data_get, h, ih]

/-! ## Theorems -/

/-- C1: for every record, `sync_state_set_measuring(false)` yields exactly
`is_measuring=false, has_data=false, latency_ms=0, video_index=-1,
audio_index=-1, frequency=0`, whatever the record held before. -/
theorem set_measuring_false_resets (s : sync_state_t) :
    sync_state_set_measuring s false =
      { latency_ms := Double.zero
        video_index := -1
        audio_index := -1
        frequency := Double.zero
        is_measuring := false
        has_data := false } := by
  simp [sync_state_set_measuring]

/-- C5: `get_sync_state_cb` has no failing path; into the empty response object
it writes exactly the six fields `latency_ms`, `video_index`, `audio_index`,
`frequency`, `is_measuring`, `has_data`, each the value the record holds at the
call (and those six names read back the same from whatever object it is given);
it leaves the record, the pointer and the dock as they were and calls no dock
wrapper. -/
theorem get_sync_state_cb_snapshot {δ : Type} (w : World δ) (r : obs_data_t) :
    (get_sync_state_cb w obs_data_create).response_data =
        [("latency_ms", .double w.g_sync_state.latency_ms),
         ("video_index", .int w.g_sync_state.video_index),
         ("audio_index", .int w.g_sync_state.audio_index),
         ("frequency", .double w.g_sync_state.frequency),
         ("is_measuring", .bool w.g_sync_state.is_measuring),
         ("has_data", .bool w.g_sync_state.has_data)] ∧
      obs_data_get (get_sync_state_cb w r).response_data "latency_ms" =
        some (.double w.g_sync_state.latency_ms) ∧
      obs_data_get (get_sync_state_cb w r).response_data "video_index" =
        some (.int w.g_sync_state.video_index) ∧
      obs_data_get (get_sync_state_cb w r).response_data "audio_index" =
        some (.int w.g_sync_state.audio_index) ∧
      obs_data_get (get_sync_state_cb w r).response_data "frequency" =
        some (.double w.g_sync_state.frequency) ∧
      obs_data_get (get_sync_state_cb w r).response_data "is_measuring" =
        some (.bool w.g_sync_state.is_measuring) ∧
      obs_data_get (get_sync_state_cb w r).response_data "has_data" =
        some (.bool w.g_sync_state.has_data) ∧
      (get_sync_state_cb w r).world = w ∧
      (get_sync_state_cb w r).calls = [] := by
  refine ⟨?_, ?_, ?_, ?_, ?_, ?_, ?_, rfl, rfl⟩
  · simp [get_sync_state_cb, obs_data_create, obs_data_set_double, obs_data_set_int,
      obs_data_set_bool, obs_data_set]
  all_goals
    simp [get_sync_state_cb, obs_data_set_double, obs_data_set_int, obs_data_set_bool,
      obs_data_get_set_self, obs_data_get_set_other]

/-- C2: the response of `start_measurement_cb` falls under three cases. With
`g_dock_instance` null: `success=false`, `error="Dock not initialized"`. Otherwise,
when the dock reports it is measuring: `success=false`, `error="Already measuring"`.
Otherwise: `success=true`, the `error` field is not written (it is whatever the
object given held, and the empty object comes back as `success=true` alone).
Hence two starts in a row, the dock measuring after the first, answer
`success=true` and then `success=false`, `error="Already measuring"`. -/
theorem start_measurement_cb_response {δ : Type} (ops : DockOps δ) (w : World δ)
    (r r2 : obs_data_t) :
    (w.g_dock_instance = 0 →
      obs_data_get (start_measurement_cb ops w r).response_data "success" =
          some (.bool false) ∧
        obs_data_get (start_measurement_cb ops w r).response_data "error" =
          some (.string "Dock not initialized")) ∧
    (w.g_dock_instance ≠ 0 → ops.sync_dock_is_measuring w.g_dock_instance w.dock = true →
      obs_data_get (start_measurement_cb ops w r).response_data "success" =
          some (.bool false) ∧
        obs_data_get (start_measurement_cb ops w r).response_data "error" =
          some (.string "Already measuring")) ∧
    (w.g_dock_instance ≠ 0 → ops.sync_dock_is_measuring w.g_dock_instance w.dock = false →
      obs_data_get (start_measurement_cb ops w r).response_data "success" =
          some (.bool true) ∧
        obs_data_get (start_measurement_cb ops w r).response_data "error" =
          obs_data_get r "error" ∧
        (start_measurement_cb ops w obs_data_create).response_data =
          [("success", .bool true)]) ∧
    (w.g_dock_instance ≠ 0 → ops.sync_dock_is_measuring w.g_dock_instance w.dock = false →
      ops.sync_dock_is_measuring w.g_dock_instance
          (start_measurement_cb ops w r).world.dock = true →
      obs_data_get (start_measurement_cb ops w r).response_data "success" =
          some (.bool true) ∧
        obs_data_get
            (start_measurement_cb ops (start_measurement_cb ops w r).world r2).response_data
            "success" = some (.bool false) ∧
        obs_data_get
            (start_measurement_cb ops (start_measurement_cb ops w r).world r2).response_data
            "error" = some (.string "Already measuring")) := by
  refine ⟨?_, ?_, ?_, ?_⟩
  · intro h0
    simp [start_measurement_cb, h0, obs_data_set_string, obs_data_set_bool,
      obs_data_get_set_self, obs_data_get_set_other]
  · intro h0 hm
    simp [start_measurement_cb, h0, hm, obs_data_set_string, obs_data_set_bool,
      obs_data_get_set_self, obs_data_get_set_other]
  · intro h0 hm
    simp [start_measurement_cb, h0, hm, obs_data_set_bool, obs_data_create, obs_data_set,
      obs_data_get_set_self, obs_data_get_set_other]
  · intro h0 hm hm2
    have hw : (start_measurement_cb ops w r).world.g_dock_instance = w.g_dock_instance := by
      simp [start_measurement_cb, h0, hm]
    refine ⟨?_, ?_, ?_⟩
    · simp [start_measurement_cb, h0, hm, obs_data_set_bool, obs_data_get_set_self]
    · rw [start_measurement_cb, hw, if_neg h0, if_pos hm2]
      simp [obs_data_set_string, obs_data_set_bool, obs_data_get_set_self,
        obs_data_get_set_other]
    · rw [start_measurement_cb, hw, if_neg h0, if_pos hm2]
      simp [obs_data_set_string, obs_data_set_bool, obs_data_get_set_self,
        obs_data_get_set_other]

/-- The three cases of C2 at concrete worlds of the session controller (no dock
installed; a session active; idle), and two starts in a row from the idle one. -/
theorem start_measurement_cb_response_witness :
    (obs_data_get
          (start_measurement_cb session_controller (World.initial false)
            obs_data_create).response_data "error" =
        some (.string "Dock not initialized")) ∧
      (obs_data_get
          (start_measurement_cb session_controller measuring_world
            obs_data_create).response_data "error" =
        some (.string "Already measuring")) ∧
      ((start_measurement_cb session_controller idle_world obs_data_create).response_data =
        [("success", .bool true)]) ∧
      (obs_data_get
          (start_measurement_cb session_controller
            (start_measurement_cb session_controller idle_world obs_data_create).world
            obs_data_create).response_data "success" =
        some (.bool false)) :=
  ⟨((start_measurement_cb_response session_controller (World.initial false)
        obs_data_create obs_data_create).1 (by decide)).2,
    ((start_measurement_cb_response session_controller measuring_world
        obs_data_create obs_data_create).2.1 (by decide) (by decide)).2,
    ((start_measurement_cb_response session_controller idle_world
        obs_data_create obs_data_create).2.2.1 (by decide) (by decide)).2.2,
    ((start_measurement_cb_response session_controller idle_world
        obs_data_create obs_data_create).2.2.2 (by decide) (by decide) (by decide)).2.1⟩

/-- C3: the response of `stop_measurement_cb` falls under three cases. With
`g_dock_instance` null: `success=false`, `error="Dock not initialized"`. Otherwise,
when the dock reports it is not measuring: `success=false`, `error="Not measuring"`.
Otherwise: `success=true`, the `error` field is not written (it is whatever the
object given held, and the empty object comes back as `success=true` alone). -/
theorem stop_measurement_cb_response {δ : Type} (ops : DockOps δ) (w : World δ)
    (r : obs_data_t) :
    (w.g_dock_instance = 0 →
      obs_data_get (stop_measurement_cb ops w r).response_data "success" =
          some (.bool false) ∧
        obs_data_get (stop_measurement_cb ops w r).response_data "error" =
          some (.string "Dock not initialized")) ∧
    (w.g_dock_instance ≠ 0 → ops.sync_dock_is_measuring w.g_dock_instance w.dock = false →
      obs_data_get (stop_measurement_cb ops w r).response_data "success" =
          some (.bool false) ∧
        obs_data_get (stop_measurement_cb ops w r).response_data "error" =
          some (.string "Not measuring")) ∧
    (w.g_dock_instance ≠ 0 → ops.sync_dock_is_measuring w.g_dock_instance w.dock = true →
      obs_data_get (stop_measurement_cb ops w r).response_data "success" =
          some (.bool true) ∧
        obs_data_get (stop_measurement_cb ops w r).response_data "error" =
          obs_data_get r "error" ∧
        (stop_measurement_cb ops w obs_data_create).response_data =
          [("success", .bool true)]) := by
  refine ⟨?_, ?_, ?_⟩
  · intro h0
    simp [stop_measurement_cb, h0, obs_data_set_string, obs_data_set_bool,
      obs_data_get_set_self, obs_data_get_set_other]
  · intro h0 hm
    simp [stop_measurement_cb, h0, hm, obs_data_set_string, obs_data_set_bool,
      obs_data_get_set_self, obs_data_get_set_other]
  · intro h0 hm
    simp [stop_measurement_cb, h0, hm, obs_data_set_bool, obs_data_create, obs_data_set,
      obs_data_get_set_self, obs_data_get_set_other]

/-- The three cases of C3 at concrete worlds of the session controller: no dock
installed, idle, and a session active. -/
theorem stop_measurement_cb_response_witness :
    (obs_data_get
          (stop_measurement_cb session_controller (World.initial false)
            obs_data_create).response_data "error" =
        some (.string "Dock not initialized")) ∧
      (obs_data_get
          (stop_measurement_cb session_controller idle_world
            obs_data_create).response_data "error" =
        some (.string "Not measuring")) ∧
      ((stop_measurement_cb session_controller measuring_world
          obs_data_create).response_data =
        [("success", .bool true)]) :=
  ⟨((stop_measurement_cb_response session_controller (World.initial false)
        obs_data_create).1 (by decide)).2,
    ((stop_measurement_cb_response session_controller idle_world
        obs_data_create).2.1 (by decide) (by decide)).2,
    ((stop_measurement_cb_response session_controller measuring_world
        obs_data_create).2.2 (by decide) (by decide)).2.2⟩

/-- C4: whenever `start_measurement_cb` or `stop_measurement_cb` answers
`success=false`, the record `g_sync_state`, the pointer `g_dock_instance` and the
dock are as they were before the request, and the handler called neither
`sync_dock_start_measurement` nor `sync_dock_stop_measurement`. -/
theorem failed_request_leaves_prior_state {δ : Type} (ops : DockOps δ) (w : World δ)
    (r : obs_data_t) :
    (obs_data_get (start_measurement_cb ops w r).response_data "success" =
        some (.bool false) →
      (start_measurement_cb ops w r).world = w ∧
        ∀ p : Nat,
          DockCall.start_measurement p ∉ (start_measurement_cb ops w r).calls ∧
            DockCall.stop_measurement p ∉ (start_measurement_cb ops w r).calls) ∧
    (obs_data_get (stop_measurement_cb ops w r).response_data "success" =
        some (.bool false) →
      (stop_measurement_cb ops w r).world = w ∧
        ∀ p : Nat,
          DockCall.start_measurement p ∉ (stop_measurement_cb ops w r).calls ∧
            DockCall.stop_measurement p ∉ (stop_measurement_cb ops w r).calls) := by
  constructor
  · intro h
    by_cases h0 : w.g_dock_instance = 0
    · simp [start_measurement_cb, h0]
    · cases hm : ops.sync_dock_is_measuring w.g_dock_instance w.dock
      · simp [start_measurement_cb, h0, hm, obs_data_set_bool, obs_data_get_set_self] at h
      · simp [start_measurement_cb, h0, hm]
  · intro h
    by_cases h0 : w.g_dock_instance = 0
    · simp [stop_measurement_cb, h0]
    · cases hm : ops.sync_dock_is_measuring w.g_dock_instance w.dock
      · simp [stop_measurement_cb, h0, hm]
      · simp [stop_measurement_cb, h0, hm, obs_data_set_bool, obs_data_get_set_self] at h

/-- C4 at concrete worlds: a second start while a session is active leaves the
world of the first untouched, and a stop while idle changes nothing. -/
theorem failed_request_leaves_prior_state_witness :
    (start_measurement_cb session_controller measuring_world obs_data_create).world =
        measuring_world ∧
      (stop_measurement_cb session_controller idle_world obs_data_create).world =
        idle_world :=
  ⟨((failed_request_leaves_prior_state session_controller measuring_world
        obs_data_create).1 (by decide)).1,
    ((failed_request_leaves_prior_state session_controller idle_world
        obs_data_create).2 (by decide)).1⟩

/-! ## Sequences of store calls -/

theorem unset_when_idle_preserved (s : sync_state_t) (ops : List StoreOp)
    (hs : s.is_measuring = false → numeric_fields_unset s)
    (hd : updates_while_measuring s ops = true) :
    (run_store s ops).is_measuring = false → numeric_fields_unset (run_store s ops) := by
  induction ops generalizing s with
  | nil => simpa [run_store] using hs
  | cons op rest ih =>
    cases op with
    | set_measuring b =>
      simp only [updates_while_measuring] at hd
      simp only [run_store, StoreOp.apply]
      refine ih _ ?_ hd
      cases b
      · intro _
        simp [sync_state_set_measuring, numeric_fields_unset]
      · intro h
        simp [sync_state_set_measuring] at h
    | update_latency v i =>
      simp only [updates_while_measuring, Bool.and_eq_true] at hd
      simp only [run_store]
      refine ih _ ?_ hd.2
      intro h
      simp [StoreOp.apply, sync_state_update_latency, hd.1] at h
    | update_video i f =>
      simp only [updates_while_measuring, Bool.and_eq_true] at hd
      simp only [run_store]
      refine ih _ ?_ hd.2
      intro h
      simp [StoreOp.apply, sync_state_update_video, hd.1] at h
    | update_audio i =>
      simp only [updates_while_measuring, Bool.and_eq_true] at hd
      simp only [run_store]
      refine ih _ ?_ hd.2
      intro h
      simp [StoreOp.apply, sync_state_update_audio, hd.1] at h

theorem has_data_false_preserved (s : sync_state_t) (ops : List StoreOp)
    (hs : s.has_data = false) (hl : ∀ v i, StoreOp.update_latency v i ∉ ops) :
    (run_store s ops).has_data = false := by
  induction ops generalizing s with
  | nil => simpa [run_store] using hs
  | cons op rest ih =>
    have hrest : ∀ v i, StoreOp.update_latency v i ∉ rest := fun v i hmem =>
      hl v i (List.mem_cons_of_mem _ hmem)
    simp only [run_store]
    refine ih _ ?_ hrest
    cases op with
    | update_latency v i => exact absurd (List.mem_cons_self _ _) (hl v i)
    | update_video i f => simpa [StoreOp.apply, sync_state_update_video] using hs
    | update_audio i => simpa [StoreOp.apply, sync_state_update_audio] using hs
    | set_measuring b =>
      cases b
      · simp [StoreOp.apply, sync_state_set_measuring]
      · simpa [StoreOp.apply, sync_state_set_measuring] using hs

/-- C6, as stated, fails: from the initial record the single call
`sync_state_update_audio(2)` leaves `is_measuring = false` with `audio_index = 2`. -/
theorem idle_fields_unset_counterexample :
    (run_store g_sync_state [.update_audio 2]).is_measuring = false ∧
      (run_store g_sync_state [.update_audio 2]).audio_index = 2 ∧
      ¬ numeric_fields_unset (run_store g_sync_state [.update_audio 2]) := by
  decide

/-- C6, amended: in every state reached from the initial `g_sync_state` by a
finite sequence of store calls in which each `sync_state_update_latency`,
`sync_state_update_video` and `sync_state_update_audio` call is made while
`is_measuring` is true, `is_measuring = false` implies `latency_ms = 0`,
`video_index = -1`, `audio_index = -1` and `frequency = 0`. -/
theorem idle_fields_unset_in_session_discipline (ops : List StoreOp)
    (hd : updates_while_measuring g_sync_state ops = true)
    (hidle : (run_store g_sync_state ops).is_measuring = false) :
    (run_store g_sync_state ops).latency_ms = Double.zero ∧
      (run_store g_sync_state ops).video_index = -1 ∧
      (run_store g_sync_state ops).audio_index = -1 ∧
      (run_store g_sync_state ops).frequency = Double.zero :=
  unset_when_idle_preserved g_sync_state ops (fun _ => by decide) hd hidle

/-- C6, amended, on a whole session: start, a video and an audio observation, a
latency, stop. -/
theorem idle_fields_unset_in_session_discipline_witness :
    (run_store g_sync_state sample_session).latency_ms = Double.zero ∧
      (run_store g_sync_state sample_session).video_index = -1 ∧
      (run_store g_sync_state sample_session).audio_index = -1 ∧
      (run_store g_sync_state sample_session).frequency = Double.zero :=
  idle_fields_unset_in_session_discipline sample_session (by decide) (by decide)

/-- C7, as stated, fails: the single call `sync_state_update_latency(3.0, 0)` on the
initial record is a sequence without `sync_state_set_measuring(true)`, and it
leaves `has_data = true` (with `is_measuring` still false). -/
theorem has_data_before_start_counterexample :
    StoreOp.set_measuring true ∉ [StoreOp.update_latency latency_3ms 0] ∧
      (run_store g_sync_state [.update_latency latency_3ms 0]).has_data = true ∧
      (run_store g_sync_state [.update_latency latency_3ms 0]).is_measuring = false := by
  decide

/-- C7, amended: in every state reached from the initial `g_sync_state` by a
finite sequence of store calls that contains no `sync_state_set_measuring(true)`
and no `sync_state_update_latency`, `has_data = false`; and `has_data` is false
right after every `sync_state_set_measuring(false)`. -/
theorem has_data_false_before_first_latency :
    (∀ ops : List StoreOp, StoreOp.set_measuring true ∉ ops →
        (∀ v i, StoreOp.update_latency v i ∉ ops) →
        (run_store g_sync_state ops).has_data = false) ∧
      ∀ s : sync_state_t, (sync_state_set_measuring s false).has_data = false :=
  ⟨fun ops _ hl => has_data_false_preserved g_sync_state ops rfl hl,
    fun s => by simp [sync_state_set_measuring]⟩

/-- C7, amended, on a sequence of channel updates and a stop made before any
start. -/
theorem has_data_false_before_first_latency_witness :
    (run_store g_sync_state
        [.update_video 1 tone_440hz, .set_measuring false, .update_audio 1]).has_data = false :=
  has_data_false_before_first_latency.1
    [.update_video 1 tone_440hz, .set_measuring false, .update_audio 1]
    (by decide) (by simp)

/-! ## Start followed by a query -/

/-- C8: let the dock be installed and idle, let its start perform exactly
`sync_state_set_measuring(true)`, and let the record be the initial
`g_sync_state` or the result of a `sync_state_set_measuring(false)`. Then
`start_measurement_cb` answers `success=true`, and a `get_sync_state_cb` issued
right after it returns `is_measuring=true`, `has_data=false`, `latency_ms=0`,
`video_index=-1`, `audio_index=-1`, `frequency=0`. -/
theorem get_sync_state_after_start {δ : Type} (ops : DockOps δ) (w : World δ)
    (hdock : w.g_dock_instance ≠ 0)
    (hidle : ops.sync_dock_is_measuring w.g_dock_instance w.dock = false)
    (hstart : (ops.sync_dock_start_measurement w.g_dock_instance w.dock).2 =
      [.set_measuring true])
    (hrec : w.g_sync_state = SyncDock.g_sync_state ∨
      ∃ s : sync_state_t, w.g_sync_state = sync_state_set_measuring s false) :
    (start_measurement_cb ops w obs_data_create).response_data = [("success", .bool true)] ∧
      (get_sync_state_cb (start_measurement_cb ops w obs_data_create).world
          obs_data_create).response_data =
        [("latency_ms", .double Double.zero),
         ("video_index", .int (-1)),
         ("audio_index", .int (-1)),
         ("frequency", .double Double.zero),
         ("is_measuring", .bool true),
         ("has_data", .bool false)] := by
  have hreset : w.g_sync_state = SyncDock.g_sync_state := by
    rcases hrec with h | ⟨s, h⟩
    · exact h
    · rw [h]
      simp [sync_state_set_measuring, SyncDock.g_sync_state]
  constructor
  · simp [start_measurement_cb, hdock, hidle, obs_data_set_bool, obs_data_create,
      obs_data_set]
  · simp [start_measurement_cb, hdock, hidle, hstart, hreset, get_sync_state_cb, run_store,
      StoreOp.apply, sync_state_set_measuring, SyncDock.g_sync_state, obs_data_set_double,
      obs_data_set_int, obs_data_set_bool, obs_data_create, obs_data_set]

/-- C8 on the session controller, started from the idle world. -/
theorem get_sync_state_after_start_witness :
    (start_measurement_cb session_controller idle_world obs_data_create).response_data =
        [("success", .bool true)] ∧
      (get_sync_state_cb
          (start_measurement_cb session_controller idle_world obs_data_create).world
          obs_data_create).response_data =
        [("latency_ms", .double Double.zero),
         ("video_index", .int (-1)),
         ("audio_index", .int (-1)),
         ("frequency", .double Double.zero),
         ("is_measuring", .bool true),
         ("has_data", .bool false)] :=
  get_sync_state_after_start session_controller idle_world (by decide) (by decide)
    (by decide) (Or.inl rfl)

/-! ## What each store function writes -/

/-- C9, as stated, fails: `sync_state_update_latency(3.0, 5)` on the initial record
stores the latency but records the index `5` in neither channel index; both stay
`-1`. -/
theorem update_latency_index_counterexample :
    (sync_state_update_latency g_sync_state latency_3ms 5).latency_ms = latency_3ms ∧
      (sync_state_update_latency g_sync_state latency_3ms 5).video_index = -1 ∧
      (sync_state_update_latency g_sync_state latency_3ms 5).audio_index = -1 ∧
      (sync_state_update_latency g_sync_state latency_3ms 5).video_index ≠ 5 ∧
      (sync_state_update_latency g_sync_state latency_3ms 5).audio_index ≠ 5 := by
  decide

/-- C9, amended: for every record `s`, value `v` and index `i`, the record after
`sync_state_update_latency(v, i)` has `latency_ms = v` and `has_data = true`; the
index `i` is not recorded, `video_index` and `audio_index` are those of `s`. -/
theorem update_latency_publishes_latency_only (s : sync_state_t) (v : Double) (i : Int) :
    (sync_state_update_latency s v i).latency_ms = v ∧
      (sync_state_update_latency s v i).has_data = true ∧
      (sync_state_update_latency s v i).video_index = s.video_index ∧
      (sync_state_update_latency s v i).audio_index = s.audio_index :=
  ⟨rfl, rfl, rfl, rfl⟩

/-- C10: each store function writes only its own fields, and none but
`sync_state_set_measuring` touches `is_measuring`.
`sync_state_update_latency(v, i)` sets `latency_ms` to `v` and `has_data` to true,
keeps the other four fields, and gives the same record for every `i`;
`sync_state_update_video(i, f)` sets `video_index` to `i` and `frequency` to `f` and
keeps the other four; `sync_state_update_audio(i)` sets `audio_index` to `i` and
keeps the other five; `sync_state_set_measuring(true)` sets `is_measuring` to true
and keeps the other five. -/
theorem store_functions_frame (s : sync_state_t) (v f : Double) (i j : Int) :
    (sync_state_update_latency s v i =
        { latency_ms := v
          video_index := s.video_index
          audio_index := s.audio_index
          frequency := s.frequency
          is_measuring := s.is_measuring
          has_data := true } ∧
      sync_state_update_latency s v i = sync_state_update_latency s v j) ∧
    sync_state_update_video s i f =
        { latency_ms := s.latency_ms
          video_index := i
          audio_index := s.audio_index
          frequency := f
          is_measuring := s.is_measuring
          has_data := s.has_data } ∧
    sync_state_update_audio s i =
        { latency_ms := s.latency_ms
          video_index := s.video_index
          audio_index := i
          frequency := s.frequency
          is_measuring := s.is_measuring
          has_data := s.has_data } ∧
    sync_state_set_measuring s true =
        { latency_ms := s.latency_ms
          video_index := s.video_index
          audio_index := s.audio_index
          frequency := s.frequency
          is_measuring := true
          has_data := s.has_data } :=
  ⟨⟨rfl, rfl⟩, rfl, rfl, rfl⟩

end SyncDock
